import Mathlib

/-!
# Verification of the Whisperwynd-Forge job poller (src/app/app.py)

Shallow embedding of the parts of `app.py` the specification talks about:
the `/generate` pipeline (`generate_image`): submission to the external
`/run` endpoint, the status-polling loop, output extraction, data-URI /
HTTP decoding, the blob upload `upload_blob`, the error classifier
`handle_api_error`, and the `/health` endpoint
(`check_api_configuration` / `health_check`).

Python values returned by `.json()` are modelled by the `Json` type with
Python truthiness; machine time is modelled in abstract time units where
the first status poll happens at time 0, polls are instantaneous and
`time.sleep(2)` advances time by 2, matching the spec's "time units".
Exceptions are modelled by the `Exc` type; control flow that `raise`s is
modelled by returning the corresponding `Exc`, which the route handlers
translate through `handle_api_error` exactly as the two `except` clauses
at the end of `generate_image` do.
-/

/-- A Python value as produced by `response.json()`. -/
inductive Json where
  | null
  | bool (b : Bool)
  | num (n : Int)
  | str (s : String)
  | arr (xs : List Json)
  | obj (fields : List (String × Json))

/-- Python truthiness: `None`, `False`, `0`, `""`, `[]`, `{ }` are falsy. -/
def Json.truthy : Json → Bool
  | .null => false
  | .bool b => b
  | .num n => n != 0
  | .str s => !s.isEmpty
  | .arr xs => !xs.isEmpty
  | .obj fs => !fs.isEmpty

mutual

/-- Python `repr()` of a `Json` value (used by `str()` on containers). -/
def Json.pyRepr : Json → String
  | .null => "None"
  | .bool true => "True"
  | .bool false => "False"
  | .num n => toString n
  | .str s => "'" ++ s ++ "'"
  | .arr xs => "[" ++ Json.pyReprList xs ++ "]"
  | .obj fs => "\x7b" ++ Json.pyReprFields fs ++ "\x7d"

/-- Comma-joined `repr`s of list elements. -/
def Json.pyReprList : List Json → String
  | [] => ""
  | [x] => x.pyRepr
  | x :: xs => x.pyRepr ++ ", " ++ Json.pyReprList xs

/-- Comma-joined `repr`s of dict entries. -/
def Json.pyReprFields : List (String × Json) → String
  | [] => ""
  | [(k, v)] => "'" ++ k ++ "': " ++ v.pyRepr
  | (k, v) :: fs => "'" ++ k ++ "': " ++ v.pyRepr ++ ", " ++ Json.pyReprFields fs

end

/-- Python `str()` of a `Json` value, as used inside f-strings. -/
def Json.pyStr : Json → String
  | .str s => s
  | j => j.pyRepr

/-- Truthiness of a `dict.get` result (`None` for a missing key is falsy). -/
def optTruthy : Option Json → Bool
  | some v => v.truthy
  | none => false

/-- Python `a or b` on two `dict.get` results: `a` if truthy, else `b`. -/
def pyOr (a b : Option Json) : Option Json :=
  match a with
  | some v => if v.truthy then some v else b
  | none => b

/-- Outcome of one HTTP request made with `requests` followed by
`raise_for_status()`: a 2xx JSON body, an HTTP error status (the raised
`HTTPError` carries the response), or a transport-level failure
(connection refused, DNS, TLS, timeout — a `RequestException` whose
`response` is `None`). -/
inductive HttpReply where
  | ok (body : List (String × Json))
  | httpError (code : Nat)
  | transport

/-- Outcome of the streaming image download (`requests.get(..., stream=True)`
followed by `raise_for_status()` and the `iter_content` write loop):

* `ok chunks` — the whole body is delivered as the chunks `iter_content`
  yields;
* `httpError code` — `raise_for_status()` raises an `HTTPError` carrying
  the response;
* `transport` — the `requests.get` call itself fails (connection refused,
  DNS, TLS): a `RequestException` with no response, raised before the
  destination file is opened;
* `midStream delivered` — `requests.get` and `raise_for_status()` succeed,
  the destination file is opened for writing, `delivered` chunks are
  yielded and written, and then `iter_content` raises a `RequestException`
  (connection drop, read timeout) with no response — leaving the chunks
  written so far in the destination file. -/
inductive FetchReply where
  | ok (chunks : List (List Nat))
  | httpError (code : Nat)
  | transport
  | midStream (delivered : List (List Nat))

/-- The behaviour of the external world during one `/generate` request:
the reply to `POST {base}/run`, the reply to the k-th
`GET {base}/status/{id}` poll, and the reply to the image download. -/
structure World where
  runReply : HttpReply
  pollReply : Nat → HttpReply
  fetchReply : FetchReply

/-- The exceptions `generate_image` can raise or observe. -/
inductive Exc where
  | httpError (code : Nat)
  | transport
  | valueError (msg : String)
  | runtimeError (msg : String)
  | timeoutError (msg : String)
  | attributeError
  deriving DecidableEq

/-- `except requests.exceptions.RequestException` catches exactly the
HTTP-status and transport errors. -/
def Exc.isRequestException : Exc → Bool
  | .httpError _ => true
  | .transport => true
  | _ => false

/-- The structured error body built by `handle_api_error`
(the `status` field is always `"error"` and is omitted). -/
structure ErrorResult where
  message : String
  user_message : String
  error_code : String
  request_id : String
  deriving DecidableEq

/-- The 401 branch of `handle_api_error`. -/
def authFailedError (rid : String) : ErrorResult :=
  ⟨"API authentication failed. Please check your API configuration.",
   "The image generator is not properly configured. Please contact the administrator.",
   "AUTH_FAILED", rid⟩

/-- The 403 branch of `handle_api_error`. -/
def forbiddenError (rid : String) : ErrorResult :=
  ⟨"API access forbidden - insufficient permissions",
   "You don't have permission to use this service.",
   "ACCESS_FORBIDDEN", rid⟩

/-- The 429 branch of `handle_api_error`. -/
def rateLimitedError (rid : String) : ErrorResult :=
  ⟨"API rate limit exceeded",
   "Too many requests. Please try again in a few minutes.",
   "RATE_LIMITED", rid⟩

/-- The `status_code >= 500` branch of `handle_api_error`. -/
def serviceErrorResult (rid : String) : ErrorResult :=
  ⟨"External API service error",
   "The image generation service is temporarily unavailable. Please try again later.",
   "SERVICE_ERROR", rid⟩

/-- The fall-through branch of `handle_api_error`. -/
def unknownErrorResult (rid : String) : ErrorResult :=
  ⟨"An unexpected error occurred",
   "Something went wrong. Please try again or contact support.",
   "UNKNOWN_ERROR", rid⟩

/-- `handle_api_error(error, request_id)`: only an exception that carries a
non-`None` `response` (an `HTTPError`) enters the status-code ladder;
everything else — transport errors and all non-request exceptions — falls
through to the generic result. -/
def handle_api_error (e : Exc) (rid : String) : ErrorResult :=
  match e with
  | .httpError code =>
      if code = 401 then authFailedError rid
      else if code = 403 then forbiddenError rid
      else if code = 429 then rateLimitedError rid
      else if 500 ≤ code then serviceErrorResult rid
      else unknownErrorResult rid
  | _ => unknownErrorResult rid

/-- `status_data.get("status") == s`: true exactly when the `status` field
is present and is the string `s`. -/
def isStatus (body : List (String × Json)) (s : String) : Bool :=
  match List.lookup "status" body with
  | some (Json.str v) => v = s
  | _ => false

/-- `str(status_data.get('status'))` as interpolated into the f-string. -/
def statusStr (body : List (String × Json)) : String :=
  match List.lookup "status" body with
  | some v => v.pyStr
  | none => "None"

/-- `str(status_data.get('error', ''))` as interpolated into the f-string. -/
def errStr (body : List (String × Json)) : String :=
  match List.lookup "error" body with
  | some v => v.pyStr
  | none => ""

/-- The `RuntimeError` message
`f"Generation StatusValue: ErrorValue"` raised on FAILED/CANCELLED. -/
def failMsg (body : List (String × Json)) : String :=
  "Generation " ++ statusStr body ++ ": " ++ errStr body

/-- A status reply that keeps the polling loop going: a 2xx body whose
`status` is none of COMPLETED, FAILED, CANCELLED. -/
def HttpReply.isNonterminal : HttpReply → Bool
  | .ok body =>
      !isStatus body "COMPLETED" && !isStatus body "FAILED" &&
        !isStatus body "CANCELLED"
  | _ => false

/-- The `TimeoutError` message of the polling loop. -/
def timeoutMsg : String := "Timed out waiting for completed job."

/-- The polling loop of `generate_image` (lines 163–176), entered at
abstract time `t` (first entry at `t = 0`, matching `t_start`).  The k-th
poll happens at time `2k`, so the reply at time `t` is `pollReply (t / 2)`.
Each iteration: issue the poll and `raise_for_status()`; on COMPLETED break
with the body; on FAILED/CANCELLED raise `RuntimeError`; then, only after
those checks, compare the elapsed time against 120 and raise `TimeoutError`
once it is exceeded; otherwise `time.sleep(2)` and loop.  Returns the loop's
result together with the times at which polls were issued. -/
def pollLoop (w : World) (t : Nat) :
    Except Exc (List (String × Json)) × List Nat :=
  match w.pollReply (t / 2) with
  | .httpError c => (.error (.httpError c), [t])
  | .transport => (.error .transport, [t])
  | .ok body =>
      if isStatus body "COMPLETED" then
        (.ok body, [t])
      else if isStatus body "FAILED" || isStatus body "CANCELLED" then
        (.error (.runtimeError (failMsg body)), [t])
      else if h : 120 < t then
        (.error (.timeoutError timeoutMsg), [t])
      else
        let r := pollLoop w (t + 2)
        (r.1, t :: r.2)
  termination_by 121 - t
  decreasing_by omega

/-- What a single loop iteration at time `t` does with reply `r`:
`some res` when the iteration ends the loop with `res`, `none` when the
loop sleeps and continues. -/
def stepResult (r : HttpReply) (t : Nat) :
    Option (Except Exc (List (String × Json))) :=
  match r with
  | .httpError c => some (.error (.httpError c))
  | .transport => some (.error .transport)
  | .ok body =>
      if isStatus body "COMPLETED" then some (.ok body)
      else if isStatus body "FAILED" || isStatus body "CANCELLED" then
        some (.error (.runtimeError (failMsg body)))
      else if 120 < t then some (.error (.timeoutError timeoutMsg))
      else none

theorem pollLoop_stop (w : World) (t : Nat)
    (res : Except Exc (List (String × Json)))
    (h : stepResult (w.pollReply (t / 2)) t = some res) :
    pollLoop w t = (res, [t]) := by
  rw [pollLoop]
  unfold stepResult at h
  cases hr : w.pollReply (t / 2) with
  | httpError c => rw [hr] at h; simp_all
  | transport => rw [hr] at h; simp_all
  | ok body =>
      rw [hr] at h
      by_cases h1 : isStatus body "COMPLETED" = true
      · simp_all
      · by_cases h2 : (isStatus body "FAILED" || isStatus body "CANCELLED") = true
        · simp_all
        · by_cases h3 : 120 < t <;> simp_all

theorem pollLoop_continue (w : World) (t : Nat)
    (h : stepResult (w.pollReply (t / 2)) t = none) :
    pollLoop w t = ((pollLoop w (t + 2)).1, t :: (pollLoop w (t + 2)).2) := by
  rw [pollLoop]
  unfold stepResult at h
  cases hr : w.pollReply (t / 2) with
  | httpError c => rw [hr] at h; simp_all
  | transport => rw [hr] at h; simp_all
  | ok body =>
      rw [hr] at h
      by_cases h1 : isStatus body "COMPLETED" = true
      · simp_all
      · by_cases h2 : (isStatus body "FAILED" || isStatus body "CANCELLED") = true
        · simp_all
        · by_cases h3 : 120 < t <;> simp_all

theorem stepResult_nonterminal (r : HttpReply) (t : Nat)
    (h : r.isNonterminal = true) (ht : t ≤ 120) : stepResult r t = none := by
  cases r with
  | httpError c => simp [HttpReply.isNonterminal] at h
  | transport => simp [HttpReply.isNonterminal] at h
  | ok body =>
      simp only [HttpReply.isNonterminal, Bool.and_eq_true, Bool.not_eq_true'] at h
      simp [stepResult, h.1.1, h.1.2, h.2, Nat.not_lt.mpr ht]

/-- If polls `m, m+1, …, k-1` all report a non-terminal status and the loop
iteration for poll `k` ends the loop with `res`, then the loop entered at
time `2m` returns `res` after issuing polls at times `2m, 2m+2, …, 2k`. -/
theorem pollLoop_run_from (w : World) (k : Nat) (hk : k ≤ 61)
    (hpre : ∀ j, j < k → (w.pollReply j).isNonterminal = true)
    (res : Except Exc (List (String × Json)))
    (hres : stepResult (w.pollReply k) (2 * k) = some res) :
    ∀ d m, m + d = k →
      pollLoop w (2 * m) = (res, List.range' (2 * m) (d + 1) 2) := by
  intro d
  induction d with
  | zero =>
      intro m hm
      have hm' : m = k := by omega
      subst hm'
      have h2 : 2 * m / 2 = m := by omega
      rw [List.range']
      rw [List.range']
      exact pollLoop_stop w (2 * m) res (by rw [h2]; exact hres)
  | succ n ih =>
      intro m hm
      have hmk : m < k := by omega
      have h2 : 2 * m / 2 = m := by omega
      have hstep : stepResult (w.pollReply (2 * m / 2)) (2 * m) = none := by
        rw [h2]
        exact stepResult_nonterminal _ _ (hpre m hmk) (by omega)
      have hcont := pollLoop_continue w (2 * m) hstep
      have hnext : 2 * m + 2 = 2 * (m + 1) := by omega
      have ihm := ih (m + 1) (by omega)
      have e1 : 2 * (m + 1) = 2 * m + 2 := by omega
      rw [hcont, hnext, ihm, e1]
      rfl

/-- Specialisation to the loop as entered by `generate_image`: start at
time 0, polls `0, …, k-1` non-terminal, iteration `k` ends the loop. -/
theorem pollLoop_run (w : World) (k : Nat) (hk : k ≤ 61)
    (hpre : ∀ j, j < k → (w.pollReply j).isNonterminal = true)
    (res : Except Exc (List (String × Json)))
    (hres : stepResult (w.pollReply k) (2 * k) = some res) :
    pollLoop w 0 = (res, List.range' 0 (k + 1) 2) := by
  have := pollLoop_run_from w k hk hpre res hres k 0 (by omega)
  simpa using this

/-- If every poll up to index 61 reports a non-terminal status, the loop
times out: the poll at time 122 is still issued (the elapsed-time check
runs only after the poll), and only then `TimeoutError` is raised.
Polls are issued at times `0, 2, …, 122`. -/
theorem pollLoop_timeout (w : World)
    (h : ∀ j, j ≤ 61 → (w.pollReply j).isNonterminal = true) :
    pollLoop w 0 = (.error (.timeoutError timeoutMsg), List.range' 0 62 2) := by
  have h61 := h 61 (by omega)
  apply pollLoop_run w 61 (by omega) (fun j hj => h j (by omega))
  cases hr : w.pollReply 61 with
  | httpError c => rw [hr] at h61; simp [HttpReply.isNonterminal] at h61
  | transport => rw [hr] at h61; simp [HttpReply.isNonterminal] at h61
  | ok body =>
      rw [hr] at h61
      simp only [HttpReply.isNonterminal, Bool.and_eq_true, Bool.not_eq_true'] at h61
      simp [stepResult, h61.1.1, h61.1.2, h61.2]

/-- The output-extraction block of `generate_image` (lines 179–186):
`image_url` starts as `None`; a dict contributes
`output.get("image_url") or output.get("image")`; a bare string contributes
itself; a non-empty list whose first element is a string contributes that
first element. -/
def extractImageUrl (output : Option Json) : Option Json :=
  match output with
  | some (Json.obj fields) =>
      pyOr (List.lookup "image_url" fields) (List.lookup "image" fields)
  | some (Json.str s) => some (Json.str s)
  | some (Json.arr (x :: _)) =>
      match x with
      | Json.str s => some (Json.str s)
      | _ => none
  | _ => none

/-- The `if not image_url: raise ValueError(...)` guard (lines 187–188):
a falsy extracted value (missing, `None`, or `""`) is rejected. -/
def finalizeImageUrl : Option Json → Option Json
  | some v => if v.truthy then some v else none
  | none => none

/-- The extraction rule as claim C2 words it: try, in order, the object
field `image_url`, the object field `image`, a bare string value, then the
first string element of a list; `none` when no shape matches. -/
def claimExtract (output : Option Json) : Option Json :=
  match output with
  | some (Json.obj fields) =>
      match List.lookup "image_url" fields with
      | some v => some v
      | none => List.lookup "image" fields
  | some (Json.str s) => some (Json.str s)
  | some (Json.arr (Json.str s :: _)) => some (Json.str s)
  | _ => none

/-- The extraction rule the code actually implements: as C2, but a
candidate only matches when its value is truthy (in particular non-empty),
and an extracted falsy value is rejected. -/
def amendedExtract (output : Option Json) : Option Json :=
  match output with
  | some (Json.obj fields) =>
      match List.lookup "image_url" fields with
      | some v =>
          if v.truthy then some v
          else
            match List.lookup "image" fields with
            | some u => if u.truthy then some u else none
            | none => none
      | none =>
          match List.lookup "image" fields with
          | some u => if u.truthy then some u else none
          | none => none
  | some (Json.str s) => if s.isEmpty then none else some (Json.str s)
  | some (Json.arr (Json.str s :: _)) =>
      if s.isEmpty then none else some (Json.str s)
  | _ => none

/-- Python's `s.startswith(pre)` on the character lists of the strings. -/
def pyStartswith (s pre : String) : Bool :=
  pre.data.isPrefixOf s.data

/-- `image_url.split(",", 1)[-1]` on the character list: everything after
the first comma, or the whole string when there is no comma. -/
def afterFirstCommaAux : List Char → Option (List Char)
  | [] => none
  | c :: cs => if c = ',' then some cs else afterFirstCommaAux cs

/-- See `afterFirstCommaAux`. -/
def afterFirstComma (s : List Char) : List Char :=
  match afterFirstCommaAux s with
  | some rest => rest
  | none => s

/-- Value of a character in the standard base64 alphabet. -/
def b64Val (c : Char) : Option Nat :=
  if 'A' ≤ c ∧ c ≤ 'Z' then some (c.toNat - 65)
  else if 'a' ≤ c ∧ c ≤ 'z' then some (c.toNat - 97 + 26)
  else if '0' ≤ c ∧ c ≤ '9' then some (c.toNat - 48 + 52)
  else if c = '+' then some 62
  else if c = '/' then some 63
  else none

/-- Decode base64 four characters at a time; `=` padding is accepted only
at the end; a leftover group of fewer than four characters is an error
(`binascii.Error`), modelled as `none`. -/
def b64DecodeGroups : List Char → Option (List Nat)
  | [] => some []
  | a :: b :: c :: d :: rest =>
      match b64Val a, b64Val b with
      | some va, some vb =>
          if c = '=' then
            if d = '=' ∧ rest = [] then some [va * 4 + vb / 16] else none
          else
            match b64Val c with
            | some vc =>
                if d = '=' then
                  if rest = [] then
                    some [va * 4 + vb / 16, (vb % 16) * 16 + vc / 4]
                  else none
                else
                  match b64Val d with
                  | some vd =>
                      match b64DecodeGroups rest with
                      | some tail =>
                          some ((va * 4 + vb / 16) :: ((vb % 16) * 16 + vc / 4) ::
                                ((vc % 4) * 64 + vd) :: tail)
                      | none => none
                  | none => none
            | none => none
      | _, _ => none
  | _ => none

/-- `base64.b64decode(data)` with the default `validate=False`: characters
outside the alphabet (other than `=`) are discarded before decoding. -/
def b64decode (s : List Char) : Option (List Nat) :=
  b64DecodeGroups (s.filter (fun c => (b64Val c).isSome || c = '='))

/-- The behaviour of the Azure blob collaborators during one
`upload_blob` call. -/
structure BlobEnv where
  /-- `BlobServiceClient.from_connection_string` succeeds (an invalid or
  blank connection string makes it raise `ValueError`). -/
  connStrValid : Bool
  /-- `container_client.create_container()` raises (e.g. the container
  already exists). -/
  createContainerRaises : Bool
  /-- `open(local_path, "rb")` raises. -/
  openRaises : Bool
  /-- `blob_client.upload_blob(...)` raises. -/
  uploadRaises : Bool

/-- What `upload_blob` does: either an exception escapes to the caller, or
a value is returned (`None` on a swallowed failure). -/
inductive UploadResult where
  | raised (msg : String)
  | returned (url : Option String)
  deriving DecidableEq

/-- An `upload_blob` call together with the `overwrite` flags of the SDK
upload calls it made. -/
structure UploadTrace where
  result : UploadResult
  uploadOverwriteFlags : List Bool
  deriving DecidableEq

/-- The `ValueError` message of `BlobServiceClient.from_connection_string`
on a malformed connection string. -/
def connStrErrorMsg : String := "Connection string is either blank or malformed."

/-- `upload_blob(local_path, blob_name)` (lines 31–46).  The
`BlobServiceClient.from_connection_string` call sits before the `try`
block, so its exception propagates to the caller.  Inside the `try`:
`create_container()` is wrapped in its own `try/except: pass`, so whatever
it raises is swallowed; any other exception is caught and `None` is
returned; on success the blob is uploaded with `overwrite=True` and the
public URL is returned. -/
def upload_blob (env : BlobEnv) (container blob_name : String) : UploadTrace :=
  if env.connStrValid = false then
    ⟨.raised connStrErrorMsg, []⟩
  else
    let _swallowed : Except Unit Unit :=
      if env.createContainerRaises then .error () else .ok ()
    if env.openRaises then ⟨.returned none, []⟩
    else if env.uploadRaises then ⟨.returned none, [true]⟩
    else
      ⟨.returned (some ("https://whiperimages.blob.core.windows.net/" ++
          container ++ "/" ++ blob_name)), [true]⟩

/-- The JSON body of the route's response: the success body of line 207 or
the error body from `handle_api_error` together with the HTTP status the
route returns with it (400 for `RequestException`, 500 otherwise). -/
inductive Outcome where
  | success (image_url : String) (blob_url : Option String)
  | failure (err : ErrorResult) (httpStatus : Nat)
  deriving DecidableEq

/-- Observable behaviour of one `/generate` request: the response, the
times at which status polls were issued, how many image downloads were
performed, and the bytes written to the destination file
`static/generated_images/{rid}.png` (`none` when the file was never
opened for writing). -/
structure GenTrace where
  outcome : Outcome
  pollTimes : List Nat
  fetchCount : Nat
  written : Option (List Nat)
  deriving DecidableEq

/-- The tail of `generate_image` after the image bytes were written:
`upload_blob(save_path, f"{rid}.png")`, whose exception (if any) is caught
by the route's generic `except Exception` handler, then the success body. -/
def finishUpload (benv : BlobEnv) (rid : String) (polls : List Nat)
    (fetches : Nat) (bytes : List Nat) : GenTrace :=
  match (upload_blob benv "images" (rid ++ ".png")).result with
  | .raised msg =>
      ⟨.failure (handle_api_error (.valueError msg) rid) 500, polls, fetches,
        some bytes⟩
  | .returned u =>
      ⟨.success ("/generated_images/" ++ rid ++ ".png") u, polls, fetches,
        some bytes⟩

/-- The part of `generate_image` that runs once the polling loop has
ended (lines 178–215), given the loop's result and the poll times:
extract the output (lines 179–188), decode it as a data URI or download
it (lines 190–204), upload the artifact (line 206), and map every raised
exception through `handle_api_error` (HTTP 400 for a `RequestException`,
500 for everything else). -/
def afterPoll (w : World) (benv : BlobEnv) (rid : String)
    (pr : Except Exc (List (String × Json)) × List Nat) : GenTrace :=
  match pr.1 with
  | .error e =>
      ⟨.failure (handle_api_error e rid)
          (if e.isRequestException then 400 else 500), pr.2, 0, none⟩
  | .ok result =>
      match finalizeImageUrl (extractImageUrl
          (List.lookup "output" result)) with
      | none =>
          ⟨.failure (handle_api_error
              (.valueError "image_url not found in output.") rid) 500,
            pr.2, 0, none⟩
      | some iu =>
          match iu with
          | Json.str s =>
              if pyStartswith s "data:image" then
                match b64decode (afterFirstComma s.data) with
                | some bytes => finishUpload benv rid pr.2 0 bytes
                | none =>
                    ⟨.failure (handle_api_error
                        (.valueError "Invalid base64-encoded string") rid)
                        500, pr.2, 0, none⟩
              else if pyStartswith s "http" then
                match w.fetchReply with
                | .ok chunks =>
                    finishUpload benv rid pr.2 1 chunks.flatten
                | .httpError c =>
                    ⟨.failure (handle_api_error (.httpError c) rid) 400,
                      pr.2, 1, none⟩
                | .transport =>
                    ⟨.failure (handle_api_error .transport rid) 400,
                      pr.2, 1, none⟩
                | .midStream delivered =>
                    ⟨.failure (handle_api_error .transport rid) 400,
                      pr.2, 1, some delivered.flatten⟩
              else
                ⟨.failure (handle_api_error
                    (.valueError "Unrecognized image_url format!") rid)
                    500, pr.2, 0, none⟩
          | _ =>
              ⟨.failure (handle_api_error .attributeError rid) 500,
                pr.2, 0, none⟩

/-- The `/generate` pipeline of `generate_image` (lines 153–215) after the
request validation: submit to `/run` (line 155), check the job id
(lines 158–160), then poll and finish via `afterPoll`. -/
def generate (w : World) (benv : BlobEnv) (rid : String) : GenTrace :=
  match w.runReply with
  | .httpError c =>
      ⟨.failure (handle_api_error (.httpError c) rid) 400, [], 0, none⟩
  | .transport =>
      ⟨.failure (handle_api_error .transport rid) 400, [], 0, none⟩
  | .ok runBody =>
      if optTruthy (List.lookup "id" runBody) = false then
        ⟨.failure (handle_api_error
            (.valueError "Job ID not found in /run response.") rid) 500,
          [], 0, none⟩
      else
        afterPoll w benv rid (pollLoop w 0)

/-- The three environment variables `check_api_configuration` inspects
(`os.environ.get`: `none` when the variable is unset). -/
structure Config where
  api_token : Option String
  bearer_token : Option String
  azure_conn_str : Option String

/-- `not VAR or VAR == placeholder`. -/
def missingVar (v : Option String) (placeholder : String) : Bool :=
  match v with
  | none => true
  | some s => s.isEmpty || s = placeholder

/-- `check_api_configuration()` (lines 100–113): the list of names of
missing or placeholder configuration values, in source order. -/
def check_api_configuration (c : Config) : List String :=
  (if missingVar c.api_token "your_runpod_api_token_here"
    then ["API_TOKEN"] else []) ++
  (if missingVar c.bearer_token "your_bearer_token_here"
    then ["BEARER_TOKEN"] else []) ++
  (if missingVar c.azure_conn_str "your_azure_connection_string_here"
    then ["AZURE_CONN_STR"] else [])

/-- The parts of the `/health` response body the claims talk about,
plus the HTTP status code. -/
structure HealthResponse where
  status : String
  api_configured : Bool
  missing_config : List String
  httpCode : Nat

/-- `health_check()` (lines 240–258). -/
def health_check (c : Config) : HealthResponse :=
  let missing := check_api_configuration c
  { status := if missing.isEmpty then "healthy" else "degraded"
    api_configured := missing.length = 0
    missing_config := missing
    httpCode := if missing.isEmpty then 200 else 503 }

/-- A configuration value counts as properly set when the variable is
present, non-empty and not the placeholder. -/
def goodVar (v : Option String) (placeholder : String) : Prop :=
  ∃ s, v = some s ∧ s ≠ "" ∧ s ≠ placeholder

theorem generate_eq_afterPoll (w : World) (benv : BlobEnv) (rid : String)
    (runBody : List (String × Json))
    (hrun : w.runReply = .ok runBody)
    (hid : optTruthy (List.lookup "id" runBody) = true) :
    generate w benv rid = afterPoll w benv rid (pollLoop w 0) := by
  simp [generate, hrun, hid]

theorem isStatus_lookup (body : List (String × Json)) (st : String)
    (h : isStatus body st = true) :
    List.lookup "status" body = some (Json.str st) := by
  unfold isStatus at h
  cases hl : List.lookup "status" body with
  | none => rw [hl] at h; cases h
  | some v =>
      rw [hl] at h
      cases v <;> simp_all

theorem isStatus_unique (body : List (String × Json)) (a b : String)
    (h : isStatus body a = true) (hab : a ≠ b) :
    isStatus body b = false := by
  have hl := isStatus_lookup body a h
  unfold isStatus
  rw [hl]
  simp [hab]

theorem upload_blob_raised (env : BlobEnv) (c n : String)
    (h : env.connStrValid = false) :
    upload_blob env c n = ⟨.raised connStrErrorMsg, []⟩ := by
  unfold upload_blob
  rw [h]
  rfl

theorem upload_blob_not_raised (env : BlobEnv) (c n : String)
    (h : env.connStrValid = true) :
    ∃ u, (upload_blob env c n).result = .returned u := by
  unfold upload_blob
  rw [h]
  by_cases ho : env.openRaises <;> by_cases hu : env.uploadRaises <;>
    simp [ho, hu]

theorem finishUpload_written (benv : BlobEnv) (rid : String)
    (polls : List Nat) (fetches : Nat) (bytes : List Nat) :
    (finishUpload benv rid polls fetches bytes).written = some bytes := by
  unfold finishUpload
  cases (upload_blob benv "images" (rid ++ ".png")).result <;> rfl

theorem finishUpload_fetchCount (benv : BlobEnv) (rid : String)
    (polls : List Nat) (fetches : Nat) (bytes : List Nat) :
    (finishUpload benv rid polls fetches bytes).fetchCount = fetches := by
  unfold finishUpload
  cases (upload_blob benv "images" (rid ++ ".png")).result <;> rfl

/-- Fixtures used by the concrete witnesses and counterexamples. -/
def runOkBody : List (String × Json) := [("id", Json.str "job-1")]

/-- A non-terminal status body. -/
def inProgressBody : List (String × Json) := [("status", Json.str "IN_PROGRESS")]

/-- A COMPLETED status body with the given `output` field. -/
def completedBody (out : Json) : List (String × Json) :=
  [("status", Json.str "COMPLETED"), ("output", out)]

/-- All Azure collaborators behave. -/
def benv0 : BlobEnv := ⟨true, false, false, false⟩

/-- A world whose polls never reach a terminal status. -/
def wNonterminal : World := ⟨.ok runOkBody, fun _ => .ok inProgressBody, .ok []⟩

/-- The spec's worked example: IN_PROGRESS twice, then COMPLETED with a
data-URI output whose base64 payload is `AAAA`. -/
def wDataUri : World :=
  ⟨.ok runOkBody,
   fun k => if k < 2 then .ok inProgressBody
            else .ok (completedBody (Json.str "data:image/png;base64,AAAA")),
   .ok []⟩

/-- FAILED with `error: "oom"` on the first poll. -/
def wFailedOom : World :=
  ⟨.ok runOkBody,
   fun _ => .ok [("status", Json.str "FAILED"), ("error", Json.str "oom")],
   .ok []⟩

/-- COMPLETED on the first poll with the bare-string output `""`. -/
def wEmptyStr : World :=
  ⟨.ok runOkBody, fun _ => .ok (completedBody (Json.str "")), .ok []⟩

/-- The `/run` response carries no `id` field. -/
def wNoId : World :=
  ⟨.ok [("status", Json.str "queued")], fun _ => .ok inProgressBody, .ok []⟩

/-- The `/run` request fails at the transport level. -/
def wTransportRun : World :=
  ⟨.transport, fun _ => .ok inProgressBody, .ok []⟩

/-- COMPLETED on the first poll with an HTTP URL output; the download
delivers the body in two chunks. -/
def wHttpUrl : World :=
  ⟨.ok runOkBody,
   fun _ => .ok (completedBody (Json.str "http://img.example/x.png")),
   .ok [[1, 2], [3]]⟩

theorem pollLoop_wDataUri :
    pollLoop wDataUri 0 =
      (.ok (completedBody (Json.str "data:image/png;base64,AAAA")),
        List.range' 0 3 2) := by
  apply pollLoop_run wDataUri 2 (by omega)
  · intro j hj
    match j with
    | 0 => rfl
    | 1 => rfl
    | j + 2 => omega
  · rfl

theorem generate_wDataUri_eval :
    generate wDataUri benv0 "r" =
      ⟨.success "/generated_images/r.png"
          (some "https://whiperimages.blob.core.windows.net/images/r.png"),
        [0, 2, 4], 0, some [0, 0, 0]⟩ := by
  rw [generate_eq_afterPoll wDataUri benv0 "r" runOkBody rfl rfl,
    pollLoop_wDataUri]
  decide

theorem generate_wEmptyStr_eval :
    generate wEmptyStr benv0 "r" =
      ⟨.failure (handle_api_error
          (.valueError "image_url not found in output.") "r") 500,
        [0], 0, none⟩ := by
  have hp : pollLoop wEmptyStr 0 =
      (.ok (completedBody (Json.str "")), List.range' 0 1 2) := by
    apply pollLoop_run wEmptyStr 0 (by omega)
    · intro j hj; omega
    · rfl
  rw [generate_eq_afterPoll wEmptyStr benv0 "r" runOkBody rfl rfl, hp]
  decide

/-- C1 (amended): for every run in which the status endpoint never
reports a terminal status, the poller polls at a fixed interval of 2 time
units — at times 0, 2, …, 122 — and the request fails with the
`TimeoutError` (the spec's `TimedOut`) once the elapsed time exceeds
`maxWait` = 120.  Because the elapsed-time check runs only after a poll
has been issued, exactly one status poll — the one at time 122 which
detects the deadline — is issued after the deadline has passed, and none
after `TimedOut` is returned.  No artifact is written. -/
theorem c1_timeout_amended (w : World) (benv : BlobEnv) (rid : String)
    (runBody : List (String × Json))
    (hrun : w.runReply = .ok runBody)
    (hid : optTruthy (List.lookup "id" runBody) = true)
    (hNT : ∀ j, j ≤ 61 → (w.pollReply j).isNonterminal = true) :
    (generate w benv rid).outcome =
        .failure (handle_api_error (.timeoutError timeoutMsg) rid) 500
    ∧ (generate w benv rid).pollTimes = List.range' 0 62 2
    ∧ (generate w benv rid).pollTimes.filter (fun t => 120 < t) = [122]
    ∧ (generate w benv rid).written = none := by
  rw [generate_eq_afterPoll w benv rid runBody hrun hid, pollLoop_timeout w hNT]
  refine ⟨rfl, rfl, ?_, rfl⟩
  show (List.range' 0 62 2).filter (fun t => 120 < t) = [122]
  decide

theorem c1_timeout_amended_witness :
    (generate wNonterminal benv0 "r").outcome =
        .failure (handle_api_error (.timeoutError timeoutMsg) "r") 500
    ∧ (generate wNonterminal benv0 "r").pollTimes.filter (fun t => 120 < t) =
        [122] := by
  have h := c1_timeout_amended wNonterminal benv0 "r" runOkBody rfl rfl
    (fun j _ => rfl)
  exact ⟨h.1, h.2.2.1⟩

/-- C1 counterexample: with a handle that never reaches a terminal
status, a status poll is issued at time 122 — strictly after the
120-unit deadline — refuting "issues no status poll after that deadline
has passed". -/
theorem c1_counterexample :
    122 ∈ (generate wNonterminal benv0 "r").pollTimes ∧ 120 < 122 := by
  rw [generate_eq_afterPoll wNonterminal benv0 "r" runOkBody rfl rfl,
    pollLoop_timeout wNonterminal (fun j _ => rfl)]
  exact ⟨by decide, by decide⟩

/-- C3 (confirmed): `handle_api_error` maps an HTTP error reply totally
and deterministically by status code — 401 → AUTH_FAILED,
403 → ACCESS_FORBIDDEN, 429 → RATE_LIMITED, every code in 500..599 →
SERVICE_ERROR — and every result is a structured body whose
machine-readable `error_code` comes with a human-readable `user_message`
distinct from the technical `message`; the `/generate` route reports an
HTTP error of the submission call through exactly this mapping. -/
theorem c3_status_mapping (c : Nat) (rid : String) :
    (c = 401 → handle_api_error (.httpError c) rid = authFailedError rid)
  ∧ (c = 403 → handle_api_error (.httpError c) rid = forbiddenError rid)
  ∧ (c = 429 → handle_api_error (.httpError c) rid = rateLimitedError rid)
  ∧ (500 ≤ c → c ≤ 599 →
      handle_api_error (.httpError c) rid = serviceErrorResult rid)
  ∧ (handle_api_error (.httpError c) rid).user_message ≠
      (handle_api_error (.httpError c) rid).message
  ∧ (∀ w benv, w.runReply = .httpError c →
      (generate w benv rid).outcome =
        .failure (handle_api_error (.httpError c) rid) 400) := by
  refine ⟨?_, ?_, ?_, ?_, ?_, ?_⟩
  · rintro rfl; rfl
  · rintro rfl; rfl
  · rintro rfl; rfl
  · intro h1 _
    have h2 : c ≠ 401 := by omega
    have h3 : c ≠ 403 := by omega
    have h4 : c ≠ 429 := by omega
    simp [handle_api_error, h2, h3, h4, h1]
  · simp only [handle_api_error]
    split_ifs <;>
      simp [authFailedError, forbiddenError, rateLimitedError,
        serviceErrorResult, unknownErrorResult]
  · intro w benv hrun
    simp [generate, hrun]

theorem c3_status_mapping_witness :
    handle_api_error (.httpError 503) "r" = serviceErrorResult "r"
  ∧ (handle_api_error (.httpError 503) "r").user_message ≠
      (handle_api_error (.httpError 503) "r").message
  ∧ handle_api_error (.httpError 401) "r" = authFailedError "r" :=
  ⟨(c3_status_mapping 503 "r").2.2.2.1 (by omega) (by omega),
   (c3_status_mapping 503 "r").2.2.2.2.1,
   (c3_status_mapping 401 "r").1 rfl⟩

/-- C5 (confirmed): when a status poll reports FAILED or CANCELLED (all
earlier polls being non-terminal), the polling loop ends with the
`RuntimeError` whose message `"Generation <STATUS>: <reason>"` carries
the server-provided reason string — the corresponding terminal result —
the route reports it through `handle_api_error` with HTTP 500, and no
artifact is written. -/
theorem c5_terminal_failure (w : World) (benv : BlobEnv) (rid : String)
    (runBody body : List (String × Json)) (k : Nat) (st : String)
    (hrun : w.runReply = .ok runBody)
    (hid : optTruthy (List.lookup "id" runBody) = true)
    (hk : k ≤ 61)
    (hpre : ∀ j, j < k → (w.pollReply j).isNonterminal = true)
    (hpk : w.pollReply k = .ok body)
    (hst : st = "FAILED" ∨ st = "CANCELLED")
    (hs : isStatus body st = true) :
    (generate w benv rid).outcome =
      .failure (handle_api_error (.runtimeError (failMsg body)) rid) 500
  ∧ (generate w benv rid).written = none
  ∧ failMsg body = "Generation " ++ st ++ ": " ++ errStr body := by
  have hc : isStatus body "COMPLETED" = false := by
    rcases hst with h | h <;> subst h <;>
      exact isStatus_unique body _ _ hs (by decide)
  have hfc : (isStatus body "FAILED" || isStatus body "CANCELLED") = true := by
    rcases hst with h | h <;> subst h <;> simp [hs]
  have hstep : stepResult (w.pollReply k) (2 * k) =
      some (.error (.runtimeError (failMsg body))) := by
    rw [hpk]; simp [stepResult, hc, hfc]
  have hp := pollLoop_run w k hk hpre _ hstep
  rw [generate_eq_afterPoll w benv rid runBody hrun hid, hp]
  refine ⟨rfl, rfl, ?_⟩
  unfold failMsg statusStr
  rw [isStatus_lookup body st hs]
  rfl

theorem c5_terminal_failure_witness :
    (generate wFailedOom benv0 "r").outcome =
      .failure (handle_api_error (.runtimeError "Generation FAILED: oom") "r")
        500
  ∧ (generate wFailedOom benv0 "r").written = none := by
  have h := c5_terminal_failure wFailedOom benv0 "r" runOkBody
    [("status", Json.str "FAILED"), ("error", Json.str "oom")] 0 "FAILED"
    rfl rfl (by omega) (fun j hj => absurd hj (by omega)) rfl (Or.inl rfl) rfl
  have hm : failMsg [("status", Json.str "FAILED"), ("error", Json.str "oom")] =
      "Generation FAILED: oom" := by decide
  exact ⟨by rw [← hm]; exact h.1, h.2.1⟩

/-- C6 (amended): a transport-level failure — a request exception with no
HTTP response — does NOT surface as ServiceError: `handle_api_error`
sends it to the generic UNKNOWN_ERROR result, which the route returns
with HTTP 400, at submission and at polling alike. -/
theorem c6_transport_amended (rid : String) :
    handle_api_error .transport rid = unknownErrorResult rid
  ∧ (unknownErrorResult rid).error_code = "UNKNOWN_ERROR"
  ∧ (∀ w benv, w.runReply = .transport →
      (generate w benv rid).outcome = .failure (unknownErrorResult rid) 400)
  ∧ (∀ w benv (runBody : List (String × Json)) (k : Nat),
      w.runReply = .ok runBody →
      optTruthy (List.lookup "id" runBody) = true →
      k ≤ 61 →
      (∀ j, j < k → (w.pollReply j).isNonterminal = true) →
      w.pollReply k = .transport →
      (generate w benv rid).outcome = .failure (unknownErrorResult rid) 400) := by
  refine ⟨rfl, rfl, ?_, ?_⟩
  · intro w benv hrun
    simp [generate, hrun, handle_api_error]
  · intro w benv runBody k hrun hid hk hpre hpk
    have hstep : stepResult (w.pollReply k) (2 * k) =
        some (.error .transport) := by rw [hpk]; rfl
    have hp := pollLoop_run w k hk hpre _ hstep
    rw [generate_eq_afterPoll w benv rid runBody hrun hid, hp]
    rfl

theorem c6_transport_amended_witness :
    (generate wTransportRun benv0 "r").outcome =
      .failure (unknownErrorResult "r") 400 :=
  (c6_transport_amended "r").2.2.1 wTransportRun benv0 rfl

/-- C6 counterexample: the transport failure at submission is reported
with error code UNKNOWN_ERROR, not as the SERVICE_ERROR result the claim
requires. -/
theorem c6_counterexample :
    (generate wTransportRun benv0 "r").outcome =
      .failure (unknownErrorResult "r") 400
  ∧ (unknownErrorResult "r").error_code = "UNKNOWN_ERROR"
  ∧ unknownErrorResult "r" ≠ serviceErrorResult "r" :=
  ⟨rfl, rfl, by decide⟩

/-- C7 (confirmed): if the `/run` response carries no (truthy) `id`, the
pipeline stops before any poll with the `ValueError` of line 160 — the
spec's `Malformed` submit error — reported through `handle_api_error`
with HTTP 500; nothing is polled, fetched, or written. -/
theorem c7_missing_job_id (w : World) (benv : BlobEnv) (rid : String)
    (runBody : List (String × Json))
    (hrun : w.runReply = .ok runBody)
    (hid : optTruthy (List.lookup "id" runBody) = false) :
    generate w benv rid =
      ⟨.failure (handle_api_error
          (.valueError "Job ID not found in /run response.") rid) 500,
        [], 0, none⟩ := by
  simp [generate, hrun, hid]

theorem c7_missing_job_id_witness :
    generate wNoId benv0 "r" =
      ⟨.failure (handle_api_error
          (.valueError "Job ID not found in /run response.") "r") 500,
        [], 0, none⟩ :=
  c7_missing_job_id wNoId benv0 "r" [("status", Json.str "queued")] rfl rfl

/-- C2 (amended): on a COMPLETED poll the output is extracted by trying,
in order, the object field `image_url`, the object field `image`, a bare
string value, then the first element of a list when that element is a
string — but a candidate only matches when its value is truthy (in
particular non-empty), and if no candidate matches the operation fails
with the `ValueError` of line 188 (the spec's `Malformed`). -/
theorem c2_extraction_amended :
    (∀ output, finalizeImageUrl (extractImageUrl output) = amendedExtract output)
  ∧ (∀ w benv rid (runBody body : List (String × Json)) (k : Nat),
      w.runReply = .ok runBody →
      optTruthy (List.lookup "id" runBody) = true →
      k ≤ 61 →
      (∀ j, j < k → (w.pollReply j).isNonterminal = true) →
      w.pollReply k = .ok body →
      isStatus body "COMPLETED" = true →
      amendedExtract (List.lookup "output" body) = none →
      (generate w benv rid).outcome =
        .failure (handle_api_error
          (.valueError "image_url not found in output.") rid) 500) := by
  have hext : ∀ output,
      finalizeImageUrl (extractImageUrl output) = amendedExtract output := by
    intro output
    rcases output with _ | v
    · rfl
    rcases v with _ | b | n | s | xs | fields
    · rfl
    · cases b <;> rfl
    · rfl
    · by_cases he : s.isEmpty = true <;>
        simp [extractImageUrl, finalizeImageUrl, amendedExtract,
          Json.truthy, he]
    · rcases xs with _ | ⟨x, xt⟩
      · rfl
      rcases x with _ | b | n | s | ys | gs
      · rfl
      · rfl
      · rfl
      · by_cases he : s.isEmpty = true <;>
          simp [extractImageUrl, finalizeImageUrl, amendedExtract,
            Json.truthy, he]
      · rfl
      · rfl
    · cases h1 : List.lookup "image_url" fields with
      | none =>
          cases h2 : List.lookup "image" fields with
          | none =>
              simp [extractImageUrl, amendedExtract, pyOr,
                finalizeImageUrl, h1, h2]
          | some u =>
              by_cases hu : u.truthy = true <;>
                simp [extractImageUrl, amendedExtract, pyOr,
                  finalizeImageUrl, h1, h2, hu]
      | some v =>
          by_cases hv : v.truthy = true
          · simp [extractImageUrl, amendedExtract, pyOr,
              finalizeImageUrl, h1, hv]
          · cases h2 : List.lookup "image" fields with
            | none =>
                simp [extractImageUrl, amendedExtract, pyOr,
                  finalizeImageUrl, h1, h2, hv]
            | some u =>
                by_cases hu : u.truthy = true <;>
                  simp [extractImageUrl, amendedExtract, pyOr,
                    finalizeImageUrl, h1, h2, hv, hu]
  refine ⟨hext, ?_⟩
  intro w benv rid runBody body k hrun hid hk hpre hpk hcomp hnone
  have hstep : stepResult (w.pollReply k) (2 * k) = some (.ok body) := by
    rw [hpk]; simp [stepResult, hcomp]
  have hp := pollLoop_run w k hk hpre _ hstep
  rw [generate_eq_afterPoll w benv rid runBody hrun hid, hp]
  simp [afterPoll, hext, hnone]

theorem c2_extraction_amended_witness :
    finalizeImageUrl (extractImageUrl (some (Json.obj
        [("image_url", Json.str ""), ("image", Json.str "x")]))) =
      some (Json.str "x")
  ∧ (generate wEmptyStr benv0 "r").outcome =
      .failure (handle_api_error
        (.valueError "image_url not found in output.") "r") 500 := by
  constructor
  · rw [c2_extraction_amended.1]
    rfl
  · exact c2_extraction_amended.2 wEmptyStr benv0 "r" runOkBody
      (completedBody (Json.str "")) 0 rfl rfl (by omega)
      (fun j hj => absurd hj (by omega)) rfl rfl rfl

/-- C2 counterexample: with COMPLETED output the bare string `""` — a
shape the claim's extraction order does match — the code rejects the
falsy value and fails with the `Malformed` `ValueError` instead of
returning `Completed("")`. -/
theorem c2_counterexample :
    claimExtract (some (Json.str "")) = some (Json.str "")
  ∧ finalizeImageUrl (extractImageUrl (some (Json.str ""))) = none
  ∧ (generate wEmptyStr benv0 "r").outcome =
      .failure (handle_api_error
        (.valueError "image_url not found in output.") "r") 500 := by
  refine ⟨rfl, rfl, ?_⟩
  rw [generate_wEmptyStr_eval]

/-- C4 (confirmed): once a COMPLETED poll's extracted output is the
string `s`: if `s` starts with the data-URI prefix, the base64 payload
after the first comma is decoded directly into the destination bytes and
no fetch is performed; otherwise if `s` starts with the HTTP scheme,
exactly one fetch is performed and, when the download delivers the body,
its chunks are streamed to the destination (the bytes written are the
concatenation of the delivered chunks); any other form fails with the
`ValueError` of line 204 (the spec's `Malformed`) with nothing fetched
or written.  In particular, the spec's example output
`data:image/png;base64,AAAA` yields exactly the 3 decoded bytes. -/
theorem c4_decode (w : World) (benv : BlobEnv) (rid : String)
    (runBody body : List (String × Json)) (k : Nat) (s : String)
    (hrun : w.runReply = .ok runBody)
    (hid : optTruthy (List.lookup "id" runBody) = true)
    (hk : k ≤ 61)
    (hpre : ∀ j, j < k → (w.pollReply j).isNonterminal = true)
    (hpk : w.pollReply k = .ok body)
    (hcomp : isStatus body "COMPLETED" = true)
    (hex : finalizeImageUrl (extractImageUrl (List.lookup "output" body)) =
      some (Json.str s)) :
    (pyStartswith s "data:image" = true →
        (generate w benv rid).fetchCount = 0
      ∧ ∀ bytes, b64decode (afterFirstComma s.data) = some bytes →
          (generate w benv rid).written = some bytes)
  ∧ (pyStartswith s "data:image" = false → pyStartswith s "http" = true →
        (generate w benv rid).fetchCount = 1
      ∧ ∀ chunks, w.fetchReply = .ok chunks →
          (generate w benv rid).written = some chunks.flatten)
  ∧ (pyStartswith s "data:image" = false → pyStartswith s "http" = false →
        (generate w benv rid).outcome =
          .failure (handle_api_error
            (.valueError "Unrecognized image_url format!") rid) 500
      ∧ (generate w benv rid).written = none
      ∧ (generate w benv rid).fetchCount = 0) := by
  have hstep : stepResult (w.pollReply k) (2 * k) = some (.ok body) := by
    rw [hpk]; simp [stepResult, hcomp]
  have hp := pollLoop_run w k hk hpre _ hstep
  have hgen := generate_eq_afterPoll w benv rid runBody hrun hid
  rw [hp] at hgen
  refine ⟨?_, ?_, ?_⟩
  · intro hd
    constructor
    · rw [hgen]
      cases hb : b64decode (afterFirstComma s.data) with
      | none => simp [afterPoll, hex, hd, hb]
      | some bytes => simp [afterPoll, hex, hd, hb, finishUpload_fetchCount]
    · intro bytes hb
      rw [hgen]
      simp [afterPoll, hex, hd, hb, finishUpload_written]
  · intro hd hh
    constructor
    · rw [hgen]
      cases hf : w.fetchReply with
      | ok chunks => simp [afterPoll, hex, hd, hh, hf, finishUpload_fetchCount]
      | httpError c => simp [afterPoll, hex, hd, hh, hf]
      | transport => simp [afterPoll, hex, hd, hh, hf]
      | midStream delivered => simp [afterPoll, hex, hd, hh, hf]
    · intro chunks hf
      rw [hgen]
      simp [afterPoll, hex, hd, hh, hf, finishUpload_written]
  · intro hd hh
    refine ⟨?_, ?_, ?_⟩ <;> rw [hgen] <;> simp [afterPoll, hex, hd, hh]

theorem c4_decode_witness :
    ((generate wDataUri benv0 "r").fetchCount = 0
      ∧ (generate wDataUri benv0 "r").written = some [0, 0, 0])
  ∧ ((generate wHttpUrl benv0 "r").fetchCount = 1
      ∧ (generate wHttpUrl benv0 "r").written = some [1, 2, 3]) := by
  have h := c4_decode wDataUri benv0 "r" runOkBody
    (completedBody (Json.str "data:image/png;base64,AAAA")) 2
    "data:image/png;base64,AAAA" rfl rfl (by omega)
    (fun j hj => by
      match j with
      | 0 => rfl
      | 1 => rfl
      | j + 2 => exact absurd hj (by omega))
    rfl rfl rfl
  have h1 := h.1 rfl
  have g := c4_decode wHttpUrl benv0 "r" runOkBody
    (completedBody (Json.str "http://img.example/x.png")) 0
    "http://img.example/x.png" rfl rfl (by omega)
    (fun j hj => absurd hj (by omega)) rfl rfl rfl
  have g1 := g.2.1 rfl rfl
  exact ⟨⟨h1.1, h1.2 [0, 0, 0] (by decide)⟩,
    ⟨g1.1, g1.2 [[1, 2], [3]] rfl⟩⟩

/-- C8 (amended): on success exactly one artifact — the image bytes — is
written to the caller's destination, and every failure or timeout path
writes nothing, with the two exceptions the claim misses: (1) when the
image download fails mid-stream, after the destination file has been
opened, the chunks delivered so far remain written on a failure path
(HTTP 400); (2) when the blob client construction raises (invalid
connection string), the exception is raised only after the artifact has
been fully written, so that failure path (HTTP 500) leaves the artifact
behind. -/
theorem c8_write_discipline (w : World) (benv : BlobEnv) (rid : String) :
    ((∃ p u, (generate w benv rid).outcome = .success p u) →
        ∃ bytes, (generate w benv rid).written = some bytes)
  ∧ ((generate w benv rid).written ≠ none →
        (∃ p u, (generate w benv rid).outcome = .success p u)
      ∨ (benv.connStrValid = false
          ∧ (generate w benv rid).outcome =
              .failure (handle_api_error (.valueError connStrErrorMsg) rid)
                500)
      ∨ (∃ delivered, w.fetchReply = .midStream delivered
          ∧ (generate w benv rid).written = some delivered.flatten
          ∧ (generate w benv rid).outcome =
              .failure (handle_api_error .transport rid) 400)) := by
  cases hr : w.runReply with
  | httpError c => simp [generate, hr]
  | transport => simp [generate, hr]
  | ok runBody =>
      by_cases hid : optTruthy (List.lookup "id" runBody) = false
      · simp [generate, hr, hid]
      · have hid' : optTruthy (List.lookup "id" runBody) = true := by
          cases h : optTruthy (List.lookup "id" runBody)
          · exact absurd h hid
          · rfl
        rw [generate_eq_afterPoll w benv rid runBody hr hid']
        rcases hpl : pollLoop w 0 with ⟨res, times⟩
        cases res with
        | error e => simp [afterPoll]
        | ok result =>
            cases hfe : finalizeImageUrl (extractImageUrl
                (List.lookup "output" result)) with
            | none => simp [afterPoll, hfe]
            | some iu =>
                cases iu with
                | str s =>
                    by_cases hd : pyStartswith s "data:image" = true
                    · cases hb : b64decode (afterFirstComma s.data) with
                      | none => simp [afterPoll, hfe, hd, hb]
                      | some bytes =>
                          cases hcv : benv.connStrValid with
                          | false =>
                              simp [afterPoll, hfe, hd, hb, finishUpload,
                                upload_blob_raised benv _ _ hcv]
                          | true =>
                              obtain ⟨u, hu⟩ := upload_blob_not_raised benv
                                "images" (rid ++ ".png") hcv
                              simp [afterPoll, hfe, hd, hb, finishUpload, hu]
                    · by_cases hh : pyStartswith s "http" = true
                      · cases hf : w.fetchReply with
                        | ok chunks =>
                            cases hcv : benv.connStrValid with
                            | false =>
                                simp [afterPoll, hfe, hd, hh, hf, finishUpload,
                                  upload_blob_raised benv _ _ hcv]
                            | true =>
                                obtain ⟨u, hu⟩ := upload_blob_not_raised benv
                                  "images" (rid ++ ".png") hcv
                                simp [afterPoll, hfe, hd, hh, hf,
                                  finishUpload, hu]
                        | httpError c => simp [afterPoll, hfe, hd, hh, hf]
                        | transport => simp [afterPoll, hfe, hd, hh, hf]
                        | midStream delivered =>
                            constructor
                            · simp [afterPoll, hfe, hd, hh, hf]
                            · intro _
                              refine Or.inr (Or.inr ⟨delivered, rfl, ?_, ?_⟩) <;>
                                simp [afterPoll, hfe, hd, hh, hf]
                      · simp [afterPoll, hfe, hd, hh]
                | null => simp [afterPoll, hfe]
                | bool b => simp [afterPoll, hfe]
                | num n => simp [afterPoll, hfe]
                | arr xs => simp [afterPoll, hfe]
                | obj fs => simp [afterPoll, hfe]

theorem c8_write_discipline_witness :
    ∃ bytes, (generate wDataUri benv0 "r").written = some bytes :=
  (c8_write_discipline wDataUri benv0 "r").1
    ⟨"/generated_images/r.png",
     some "https://whiperimages.blob.core.windows.net/images/r.png",
     by rw [generate_wDataUri_eval]⟩

/-- An Azure environment whose connection string is invalid. -/
def benvBadConn : BlobEnv := ⟨false, false, false, false⟩

/-- C8 counterexample: with a COMPLETED data-URI output but an invalid
Azure connection string, the request ends on a failure path (HTTP 500,
the propagated `ValueError` of the client construction) even though the
3-byte artifact has already been written to the destination. -/
theorem c8_counterexample :
    (generate wDataUri benvBadConn "r").written = some [0, 0, 0]
  ∧ (generate wDataUri benvBadConn "r").outcome =
      .failure (handle_api_error (.valueError connStrErrorMsg) "r") 500 := by
  rw [generate_eq_afterPoll wDataUri benvBadConn "r" runOkBody rfl rfl,
    pollLoop_wDataUri]
  exact ⟨rfl, rfl⟩

/-- C9 (amended): apart from the construction of the blob service client
from the connection string — which happens before the `try` block, so
its exception propagates to the caller — `upload_blob` never raises: a
failure of `create_container` (e.g. the container already exists) is
swallowed and changes nothing, any other failure makes it return no URL
(`None`), and on success it returns the blob URL after an upload
performed with `overwrite=True`. -/
theorem c9_upload_amended (env : BlobEnv) (container name : String) :
    (env.connStrValid = false →
        upload_blob env container name = ⟨.raised connStrErrorMsg, []⟩)
  ∧ (env.connStrValid = true →
        ∀ msg, (upload_blob env container name).result ≠ .raised msg)
  ∧ (∀ b, upload_blob { env with createContainerRaises := b } container name =
        upload_blob env container name)
  ∧ (env.connStrValid = true → env.openRaises = true →
        (upload_blob env container name).result = .returned none)
  ∧ (env.connStrValid = true → env.openRaises = false →
      env.uploadRaises = true →
        upload_blob env container name = ⟨.returned none, [true]⟩)
  ∧ (env.connStrValid = true → env.openRaises = false →
      env.uploadRaises = false →
        upload_blob env container name =
          ⟨.returned (some ("https://whiperimages.blob.core.windows.net/" ++
              container ++ "/" ++ name)), [true]⟩)
  ∧ (∀ f, f ∈ (upload_blob env container name).uploadOverwriteFlags →
        f = true) := by
  refine ⟨?_, ?_, ?_, ?_, ?_, ?_, ?_⟩
  · intro h
    exact upload_blob_raised env container name h
  · intro h msg
    obtain ⟨u, hu⟩ := upload_blob_not_raised env container name h
    rw [hu]
    simp
  · intro b
    cases hcv : env.connStrValid <;> simp [upload_blob, hcv]
  · intro h ho
    simp [upload_blob, h, ho]
  · intro h ho hu
    simp [upload_blob, h, ho, hu]
  · intro h ho hu
    simp [upload_blob, h, ho, hu]
  · intro f hf
    unfold upload_blob at hf
    by_cases h1 : env.connStrValid = false
    · rw [if_pos h1] at hf
      simp at hf
    · rw [if_neg h1] at hf
      by_cases h2 : env.openRaises = true
      · simp [h2] at hf
      · by_cases h3 : env.uploadRaises = true
        · simp [h2, h3] at hf
          exact hf
        · simp [h2, h3] at hf
          exact hf

theorem c9_upload_amended_witness :
    upload_blob ⟨true, true, false, true⟩ "images" "w.png" =
      ⟨.returned none, [true]⟩
  ∧ ∀ msg, (upload_blob ⟨true, true, false, true⟩ "images" "w.png").result ≠
      .raised msg :=
  ⟨(c9_upload_amended ⟨true, true, false, true⟩ "images" "w.png").2.2.2.2.1
      rfl rfl rfl,
   (c9_upload_amended ⟨true, true, false, true⟩ "images" "w.png").2.1 rfl⟩

/-- C9 counterexample: with an invalid connection string the client
construction raises `ValueError` and the exception escapes `upload_blob`
to its caller, refuting "never raises to its caller". -/
theorem c9_counterexample :
    (upload_blob ⟨false, false, false, false⟩ "images" "r.png").result =
      .raised connStrErrorMsg := rfl

theorem missingVar_false_iff (v : Option String) (ph : String) :
    missingVar v ph = false ↔ goodVar v ph := by
  cases v with
  | none => simp [missingVar, goodVar]
  | some s =>
      unfold missingVar goodVar
      constructor
      · intro h
        rw [Bool.or_eq_false_iff] at h
        refine ⟨s, rfl, ?_, ?_⟩
        · intro h0
          rw [h0] at h
          exact absurd h.1 (by decide)
        · intro h0
          rw [h0] at h
          simp at h
      · rintro ⟨t, ht, h1, h2⟩
        have hts : t = s := (Option.some.inj ht).symm
        subst hts
        rw [Bool.or_eq_false_iff]
        constructor
        · cases hs : t.isEmpty
          · rfl
          · exact absurd ((String.isEmpty_iff t).mp hs) h1
        · exact decide_eq_false h2

theorem check_empty_iff (c : Config) :
    check_api_configuration c = [] ↔
      (missingVar c.api_token "your_runpod_api_token_here" = false
       ∧ missingVar c.bearer_token "your_bearer_token_here" = false
       ∧ missingVar c.azure_conn_str "your_azure_connection_string_here"
           = false) := by
  unfold check_api_configuration
  cases h1 : missingVar c.api_token "your_runpod_api_token_here" <;>
    cases h2 : missingVar c.bearer_token "your_bearer_token_here" <;>
      cases h3 : missingVar c.azure_conn_str
          "your_azure_connection_string_here" <;>
        simp

theorem mem_check_api_configuration (c : Config) (name : String) :
    name ∈ check_api_configuration c ↔
      ((name = "API_TOKEN"
          ∧ missingVar c.api_token "your_runpod_api_token_here" = true)
       ∨ (name = "BEARER_TOKEN"
          ∧ missingVar c.bearer_token "your_bearer_token_here" = true)
       ∨ (name = "AZURE_CONN_STR"
          ∧ missingVar c.azure_conn_str "your_azure_connection_string_here"
              = true)) := by
  unfold check_api_configuration
  cases h1 : missingVar c.api_token "your_runpod_api_token_here" <;>
    cases h2 : missingVar c.bearer_token "your_bearer_token_here" <;>
      cases h3 : missingVar c.azure_conn_str
          "your_azure_connection_string_here" <;>
        simp

/-- C10 (confirmed, reading "set" as set to a non-empty value, matching
Python truthiness): `/health` returns HTTP 200 with status "healthy"
exactly when API_TOKEN, BEARER_TOKEN and AZURE_CONN_STR are all present,
non-empty and not their placeholder values; otherwise it returns HTTP
503 with status "degraded" and `missing_config` lists exactly the names
of the missing values. -/
theorem c10_health (c : Config) :
    (((health_check c).httpCode = 200 ∧ (health_check c).status = "healthy") ↔
      (goodVar c.api_token "your_runpod_api_token_here"
       ∧ goodVar c.bearer_token "your_bearer_token_here"
       ∧ goodVar c.azure_conn_str "your_azure_connection_string_here"))
  ∧ (¬(goodVar c.api_token "your_runpod_api_token_here"
       ∧ goodVar c.bearer_token "your_bearer_token_here"
       ∧ goodVar c.azure_conn_str "your_azure_connection_string_here") →
      (health_check c).httpCode = 503
      ∧ (health_check c).status = "degraded")
  ∧ (∀ name, name ∈ (health_check c).missing_config ↔
      ((name = "API_TOKEN"
          ∧ missingVar c.api_token "your_runpod_api_token_here" = true)
       ∨ (name = "BEARER_TOKEN"
          ∧ missingVar c.bearer_token "your_bearer_token_here" = true)
       ∨ (name = "AZURE_CONN_STR"
          ∧ missingVar c.azure_conn_str "your_azure_connection_string_here"
              = true))) := by
  have hmem := mem_check_api_configuration c
  have hmain : (check_api_configuration c).isEmpty = true ↔
      (goodVar c.api_token "your_runpod_api_token_here"
       ∧ goodVar c.bearer_token "your_bearer_token_here"
       ∧ goodVar c.azure_conn_str "your_azure_connection_string_here") := by
    rw [List.isEmpty_iff, check_empty_iff, missingVar_false_iff,
      missingVar_false_iff, missingVar_false_iff]
  cases he : (check_api_configuration c).isEmpty with
  | true =>
      have hg := hmain.mp he
      refine ⟨?_, ?_, ?_⟩
      · simp [health_check, he, hg]
      · intro hng
        exact absurd hg hng
      · intro name
        exact hmem name
  | false =>
      have hng : ¬(goodVar c.api_token "your_runpod_api_token_here"
          ∧ goodVar c.bearer_token "your_bearer_token_here"
          ∧ goodVar c.azure_conn_str "your_azure_connection_string_here") := by
        intro hg
        have h2 := hmain.mpr hg
        rw [he] at h2
        cases h2
      refine ⟨?_, ?_, ?_⟩
      · simp [health_check, he, hng]
      · intro _
        simp [health_check, he]
      · intro name
        exact hmem name

theorem c10_health_witness :
    (health_check ⟨some "tok", none, some "cs"⟩).httpCode = 503
  ∧ (health_check ⟨some "tok", none, some "cs"⟩).status = "degraded"
  ∧ "BEARER_TOKEN" ∈
      (health_check ⟨some "tok", none, some "cs"⟩).missing_config := by
  have h := c10_health ⟨some "tok", none, some "cs"⟩
  have hng : ¬(goodVar (some "tok") "your_runpod_api_token_here"
      ∧ goodVar none "your_bearer_token_here"
      ∧ goodVar (some "cs") "your_azure_connection_string_here") := by
    rintro ⟨-, ⟨s, hs, -⟩, -⟩
    cases hs
  exact ⟨(h.2.1 hng).1, (h.2.1 hng).2,
    (h.2.2 "BEARER_TOKEN").mpr (Or.inr (Or.inl ⟨rfl, rfl⟩))⟩
